import Mathlib

/-!
Shallow embedding of the portfolio-position ledger and P&L settlement engine
of the prescient-os repository.

Sources embedded:
- `src/db/operations.py` — the durable store and its accessors;
- `src/price_updater.py` — the repricing pass and resolution settlement;
- `src/paper_trading_controller.py` — trade execution and the portfolio
  update endpoint.

Modelling conventions:
- Money and prices are rationals (`ℚ`).  All concrete values appearing in the
  claims are exactly representable, so the float/rational gap does not affect
  any statement proved here.  Python's `round(x, 2)` is modelled as rounding
  `x * 100` to the nearest integer (`round2`); the half-even/half-up tie
  difference is irrelevant to every value that occurs below.
- Timestamps (`NOW()`, `datetime.now()`) are an abstract counter `Nat`
  supplied by the caller of each pass, mirroring that every row written in
  one call sees the same wall-clock instant for our purposes.
- Each database helper in `operations.py` runs inside `with get_db() as db`
  and ends in its own `db.commit()`; an embedded helper is therefore one
  total function from store to store, and a sequence of helper calls is a
  sequence of separately durable states.
- Python dictionaries read from the database always carry their keys, with
  `None` for SQL `NULL`; such fields are `Option` values.  A key that may be
  genuinely absent from a caller-built dictionary (the legacy `execute_trade`
  signal dictionary) is likewise an `Option`, with `none` meaning the key is
  absent so that `dict.get(k, d)` returns the default `d`.
-/

namespace PrescientOS

/-- Python `round(x, 2)`: round to two decimal places.  Modelled as
round-half-up on rationals (`⌊100·x + 1/2⌋ / 100`); Python rounds binary
floats half-to-even, which differs only on exact half-cent ties, and no
value in the claims or the counterexamples below sits on such a tie. -/
def round2 (x : ℚ) : ℚ := ((⌊x * 100 + 1 / 2⌋ : ℤ) : ℚ) / 100

/-- A two-outcome market quote as produced by `_fetch_market_prices`
(`price_updater.py` lines 160-175): `yes_price` and `no_price` parsed from
the `outcomePrices` array.  Liquidity/volume are irrelevant to the claims. -/
structure Quote where
  yes_price : ℚ
  no_price : ℚ
deriving DecidableEq, Repr

/-- One row of the `portfolios` table, with the columns enumerated by the
`SELECT` lists of `get_portfolio_state` / `get_all_portfolios`
(`operations.py` lines 111-118 and 153-159).  Note that the table has no
`total_trades_executed`, `total_winning_trades`, `total_losing_trades` or
`avg_trade_pnl` column and no portfolio getter returns such keys. -/
structure PortfolioRow where
  portfolio_id : Nat
  name : String
  description : String
  strategy_type : String
  initial_balance : ℚ
  current_balance : ℚ
  total_invested : ℚ
  total_profit_loss : ℚ
  trade_count : Nat
  status : String
  created_at : Nat
  last_updated : Nat
  strategy_config : String
  last_trade_at : Option Nat
  last_price_update : Option Nat
deriving DecidableEq, Repr

/-- One row of the `portfolio_positions` table (columns of the `SELECT` in
`get_portfolio_positions`, `operations.py` lines 292-299). -/
structure PositionRow where
  portfolio_id : Nat
  trade_id : String
  market_id : String
  market_question : String
  action : String
  amount : ℚ
  entry_price : ℚ
  entry_timestamp : Nat
  status : String
  current_pnl : Option ℚ
  realized_pnl : Option ℚ
  exit_price : Option ℚ
  exit_timestamp : Option Nat
deriving DecidableEq, Repr

/-- One row of the `trades` table (the columns of `insert_trade`'s `INSERT`,
`operations.py` lines 441-449, restricted to the fields the claims touch). -/
structure TradeRow where
  portfolio_id : Nat
  trade_id : String
  timestamp : Nat
  market_id : String
  market_question : String
  action : String
  amount : ℚ
  entry_price : ℚ
  confidence : Option ℚ
  reason : String
  status : String
  current_pnl : Option ℚ
  realized_pnl : Option ℚ
deriving DecidableEq, Repr

/-- One row of the `trading_signals` table (columns of `get_current_signals`,
`operations.py` lines 682-684, restricted to the fields the claims touch).
`amount` is nullable: `get_current_signals` maps SQL `NULL` to Python `None`
(line 715). -/
structure SignalRow where
  id : Nat
  portfolio_id : Nat
  market_id : String
  market_question : String
  action : String
  target_price : ℚ
  amount : Option ℚ
  confidence : Option ℚ
  reason : String
  executed : Bool
  executed_at : Option Nat
  trade_id : Option String
deriving DecidableEq, Repr

/-- The durable store: the four tables the ledger claims are about. -/
structure Store where
  portfolios : List PortfolioRow
  positions : List PositionRow
  trades : List TradeRow
  signals : List SignalRow
deriving DecidableEq, Repr

/-! ## `operations.py` — portfolio operations -/

/-- `_get_default_portfolio_id` (`operations.py` lines 32-48): the first
active portfolio ordered by `portfolio_id` ascending, or an error
(`ValueError`) when none exists. -/
def get_default_portfolio_id (st : Store) : Option Nat :=
  ((st.portfolios.filter (fun p => p.status = "active")).map
      (fun p => p.portfolio_id)).min?

/-- `get_portfolio_state` for an explicit id (`operations.py` lines 110-139):
the row with that `portfolio_id`, or an error when absent. -/
def get_portfolio_state (st : Store) (portfolio_id : Nat) : Option PortfolioRow :=
  st.portfolios.find? (fun p => p.portfolio_id = portfolio_id)

/-- `get_portfolio_state` with its `portfolio_id=None` default resolution
(`operations.py` lines 106-108). -/
def get_portfolio_state_opt (st : Store) (portfolio_id : Option Nat) :
    Option PortfolioRow :=
  match portfolio_id with
  | some pid => get_portfolio_state st pid
  | none => (get_default_portfolio_id st).bind (get_portfolio_state st)

/-- The fields a call to `update_portfolio` may carry in its `updates`
dictionary.  `update_portfolio` builds its `SET` clause from whatever keys
the dictionary holds (`operations.py` line 211), so the restricted fields
`portfolio_id` / `created_at` / `initial_balance` are representable here:
only the HTTP endpoint filters them out. -/
structure PortfolioUpdates where
  portfolio_id : Option Nat := none
  created_at : Option Nat := none
  initial_balance : Option ℚ := none
  name : Option String := none
  description : Option String := none
  status : Option String := none
  strategy_config : Option String := none
  current_balance : Option ℚ := none
  total_invested : Option ℚ := none
  total_profit_loss : Option ℚ := none
  trade_count : Option Nat := none
  last_trade_at : Option Nat := none
  last_price_update : Option Nat := none
deriving DecidableEq, Repr

/-- Apply an `updates` dictionary to one portfolio row.  `update_portfolio`
always appends `last_updated = NOW()` to the `SET` clause (`operations.py`
line 212), so `last_updated` is stamped on every call. -/
def applyPortfolioUpdates (u : PortfolioUpdates) (now : Nat) (p : PortfolioRow) :
    PortfolioRow :=
  { p with
    portfolio_id := u.portfolio_id.getD p.portfolio_id
    created_at := u.created_at.getD p.created_at
    initial_balance := u.initial_balance.getD p.initial_balance
    name := u.name.getD p.name
    description := u.description.getD p.description
    status := u.status.getD p.status
    strategy_config := u.strategy_config.getD p.strategy_config
    current_balance := u.current_balance.getD p.current_balance
    total_invested := u.total_invested.getD p.total_invested
    total_profit_loss := u.total_profit_loss.getD p.total_profit_loss
    trade_count := u.trade_count.getD p.trade_count
    last_trade_at := (u.last_trade_at.map some).getD p.last_trade_at
    last_price_update := (u.last_price_update.map some).getD p.last_price_update
    last_updated := now }

/-- `update_portfolio` (`operations.py` lines 193-229): `UPDATE portfolios SET
... , last_updated = NOW() WHERE portfolio_id = :portfolio_id`, committed. -/
def update_portfolio (st : Store) (portfolio_id : Nat) (u : PortfolioUpdates)
    (now : Nat) : Store :=
  { st with
    portfolios := st.portfolios.map (fun p =>
      if p.portfolio_id = portfolio_id then applyPortfolioUpdates u now p else p) }

/-- The data `create_portfolio` consumes (`operations.py` lines 51-93).
`current_balance` defaults to `initial_balance`
(`portfolio_data.get('current_balance', portfolio_data['initial_balance'])`,
line 87). -/
structure CreatePortfolioData where
  name : String
  description : String := ""
  strategy_type : String
  initial_balance : ℚ
  current_balance : Option ℚ := none
  strategy_config : String := "{}"
deriving DecidableEq, Repr

/-- `create_portfolio` (`operations.py` lines 74-93): inserts a new row with
status `'active'`; the only code path that writes `initial_balance`. -/
def create_portfolio (st : Store) (d : CreatePortfolioData) (new_id : Nat)
    (now : Nat) : Store :=
  { st with
    portfolios := st.portfolios ++
      [{ portfolio_id := new_id
         name := d.name
         description := d.description
         strategy_type := d.strategy_type
         initial_balance := d.initial_balance
         current_balance := d.current_balance.getD d.initial_balance
         total_invested := 0
         total_profit_loss := 0
         trade_count := 0
         status := "active"
         created_at := now
         last_updated := now
         strategy_config := d.strategy_config
         last_trade_at := none
         last_price_update := none }] }

/-! ## `operations.py` — position ledger operations -/

/-- The dictionary `get_portfolio_positions` builds from a row
(`operations.py` lines 302-317).  The conversions for the nullable numeric
columns use Python truthiness:
`'current_pnl': float(row[9]) if row[9] else 0.0`,
`'realized_pnl': float(row[10]) if row[10] else None`,
`'exit_price': float(row[11]) if row[11] else None`,
so a stored `0` is presented the same way as SQL `NULL`. -/
structure PositionView where
  portfolio_id : Nat
  trade_id : String
  market_id : String
  market_question : String
  action : String
  amount : ℚ
  entry_price : ℚ
  status : String
  current_pnl : ℚ
  realized_pnl : Option ℚ
  exit_price : Option ℚ
  exit_timestamp : Option Nat
deriving DecidableEq, Repr

/-- `float(x) if x else None` on a nullable numeric column: both `NULL` and a
stored zero come out as `None`. -/
def floatOrNone (x : Option ℚ) : Option ℚ :=
  match x with
  | none => none
  | some v => if v = 0 then none else some v

/-- `float(x) if x else 0.0` on a nullable numeric column. -/
def floatOrZero (x : Option ℚ) : ℚ :=
  match x with
  | none => 0
  | some v => v

/-- Row-to-dictionary conversion of `get_portfolio_positions`
(`operations.py` lines 302-317). -/
def readPositionRow (r : PositionRow) : PositionView :=
  { portfolio_id := r.portfolio_id
    trade_id := r.trade_id
    market_id := r.market_id
    market_question := r.market_question
    action := r.action
    amount := r.amount
    entry_price := r.entry_price
    status := r.status
    current_pnl := floatOrZero r.current_pnl
    realized_pnl := floatOrNone r.realized_pnl
    exit_price := floatOrNone r.exit_price
    exit_timestamp := r.exit_timestamp }

/-- `get_portfolio_positions` (`operations.py` lines 280-319):
`WHERE portfolio_id = :portfolio_id AND status = :status`, each row converted
by `readPositionRow`.  (The `ORDER BY entry_timestamp DESC` only permutes the
result; the claims below are insensitive to order, so insertion order is
kept.) -/
def get_portfolio_positions (st : Store) (portfolio_id : Nat) (status : String) :
    List PositionView :=
  ((st.positions.filter (fun r =>
      r.portfolio_id = portfolio_id ∧ r.status = status)).map readPositionRow)

/-- The rows `get_portfolio_positions` selects, before dictionary conversion
(used by passes that then write back through `trade_id`). -/
def positionRowsOf (st : Store) (portfolio_id : Nat) (status : String) :
    List PositionRow :=
  st.positions.filter (fun r =>
    r.portfolio_id = portfolio_id ∧ r.status = status)

/-- The data `add_portfolio_position` consumes: the `position` dictionary
built by its callers (`paper_trading_controller.py` lines 371-381), which
always carries `status = 'open'` and `current_pnl = 0.0` and never carries
`realized_pnl` / `exit_price` / `exit_timestamp` — the `INSERT` column list
(`operations.py` lines 337-341) leaves those columns `NULL`. -/
structure NewPositionData where
  trade_id : String
  market_id : String
  market_question : String
  action : String
  amount : ℚ
  entry_price : ℚ
  entry_timestamp : Nat
  status : String
  current_pnl : ℚ
deriving DecidableEq, Repr

/-- `add_portfolio_position` (`operations.py` lines 322-344). -/
def add_portfolio_position (st : Store) (d : NewPositionData)
    (portfolio_id : Nat) : Store :=
  { st with
    positions := st.positions ++
      [{ portfolio_id := portfolio_id
         trade_id := d.trade_id
         market_id := d.market_id
         market_question := d.market_question
         action := d.action
         amount := d.amount
         entry_price := d.entry_price
         entry_timestamp := d.entry_timestamp
         status := d.status
         current_pnl := some d.current_pnl
         realized_pnl := none
         exit_price := none
         exit_timestamp := none }] }

/-- Whether a row matches `close_portfolio_position` /
`update_portfolio_position` / `mark_signal_executed`'s `WHERE` clause: the
`portfolio_id` conjunct is only added when a portfolio id is supplied. -/
def pidMatches (portfolio_id : Option Nat) (row_pid : Nat) : Prop :=
  match portfolio_id with
  | none => True
  | some pid => row_pid = pid

instance (portfolio_id : Option Nat) (row_pid : Nat) :
    Decidable (pidMatches portfolio_id row_pid) := by
  unfold pidMatches
  cases portfolio_id <;> infer_instance

/-- `update_portfolio_position` (`operations.py` lines 347-373), specialised
to the single update its live caller performs
(`_update_portfolio_pnl_in_db` line 342-346: `{'current_pnl': v}`). -/
def update_portfolio_position_pnl (st : Store) (trade_id : String) (v : ℚ)
    (portfolio_id : Option Nat) : Store :=
  { st with
    positions := st.positions.map (fun r =>
      if r.trade_id = trade_id ∧ pidMatches portfolio_id r.portfolio_id then
        { r with current_pnl := some v }
      else r) }

/-- `close_portfolio_position` (`operations.py` lines 376-420): one commit
updating the position row(s) (`status='closed'`, `exit_price`,
`exit_timestamp=NOW()`, `realized_pnl`) and the mirrored trade row(s)
(`status='closed'`, `realized_pnl`).  There is no `status = 'open'` guard in
either `WHERE` clause. -/
def close_portfolio_position (st : Store) (trade_id : String) (exit_price : ℚ)
    (realized_pnl : ℚ) (portfolio_id : Option Nat) (now : Nat) : Store :=
  { st with
    positions := st.positions.map (fun r =>
      if r.trade_id = trade_id ∧ pidMatches portfolio_id r.portfolio_id then
        { r with
          status := "closed"
          exit_price := some exit_price
          exit_timestamp := some now
          realized_pnl := some realized_pnl }
      else r)
    trades := st.trades.map (fun t =>
      if t.trade_id = trade_id ∧ pidMatches portfolio_id t.portfolio_id then
        { t with status := "closed", realized_pnl := some realized_pnl }
      else t) }

/-! ## `operations.py` — trade and signal operations -/

/-- `insert_trade` (`operations.py` lines 427-451). -/
def insert_trade (st : Store) (t : TradeRow) : Store :=
  { st with trades := st.trades ++ [t] }

/-- `get_current_signals` with the `executed` filter its live caller uses
(`execute_signals` line 299: `executed=False`): `WHERE portfolio_id = :pid
AND executed = :executed`.  (`ORDER BY timestamp DESC` permutes only.) -/
def get_current_signals (st : Store) (portfolio_id : Nat) (executed : Bool) :
    List SignalRow :=
  st.signals.filter (fun s =>
    s.portfolio_id = portfolio_id ∧ s.executed = executed)

/-- `mark_signal_executed` (`operations.py` lines 732-764): sets
`executed = TRUE`, `executed_at = COALESCE(:executed_at, NOW())` and
`trade_id` on the matching signal row(s). -/
def mark_signal_executed (st : Store) (signal_id : Nat) (trade_id : String)
    (now : Nat) (portfolio_id : Option Nat) : Store :=
  { st with
    signals := st.signals.map (fun s =>
      if s.id = signal_id ∧ pidMatches portfolio_id s.portfolio_id then
        { s with executed := true, executed_at := some now,
                 trade_id := some trade_id }
      else s) }

/-! ## `price_updater.py` — settlement and repricing -/

/-- The complete list of functions `src/db/operations.py` defines (its `def`
statements, in file order).  Relevant fact: there is no `get_portfolio` —
the closest names are `get_portfolio_state` and `get_portfolio_positions`. -/
def operationsFunctionNames : List String :=
  ["_json_default_serializer", "_get_default_portfolio_id",
   "create_portfolio", "get_portfolio_state", "get_all_portfolios",
   "update_portfolio", "pause_portfolio", "archive_portfolio",
   "delete_portfolio", "upsert_portfolio_state", "get_portfolio_positions",
   "add_portfolio_position", "update_portfolio_position",
   "close_portfolio_position", "insert_trade", "get_trades",
   "get_trade_by_id", "update_trade_status", "insert_signal",
   "insert_signals", "get_current_signals", "mark_signal_executed",
   "upsert_events", "get_events", "clear_filtered_events", "upsert_markets",
   "get_markets", "insert_market_snapshot", "clear_filtered_markets",
   "insert_portfolio_history_snapshot", "get_portfolio_history",
   "insert_signal_archive", "get_recent_signal_archives"]

/-- The realized-P&L formula written at `price_updater.py` lines 215-218:
`round(amount * (exit_price - entry_price), 2)`.  (In the running program
these lines are unreachable — see `close_position_on_resolution` — but they
are the arithmetic the settlement was written to perform.) -/
def resolution_realized_pnl (amount exit_price entry_price : ℚ) : ℚ :=
  round2 (amount * (exit_price - entry_price))

/-- The cash-return rule written at `price_updater.py` lines 220-226:
the full stake back on a win, nothing on a loss. -/
def resolution_cash_returned (amount : ℚ) (won_position : Bool) : ℚ :=
  if won_position then amount else 0

/-- `_close_position_on_resolution` (`price_updater.py` lines 189-281).

The body's first statement is
`from src.db.operations import (close_portfolio_position, update_portfolio,
get_portfolio)` (lines 205-210), and `operations.py` defines no
`get_portfolio` (see `operationsFunctionNames`), so this raises
`ImportError` before any database write; the blanket
`except Exception as e: logger.error(...)` at lines 278-281 swallows it and
the function returns with the store unchanged.  The embedding is therefore
the identity on the store.

Were the import to resolve, the body would next fail anyway: lines 244-253
read the keys `'total_trades_executed'`, `'total_winning_trades'` and
`'total_losing_trades'` from the portfolio dictionary, keys that no
portfolio accessor in `operations.py` produces (see `PortfolioRow`), and
lines 261-269 would update columns (`total_winning_trades`,
`total_losing_trades`, `avg_trade_pnl`) absent from the `portfolios` table's
column list. -/
def close_position_on_resolution (st : Store) (_position : PositionRow)
    (_exit_price : ℚ) (_won_position : Bool) (_portfolio_id : Nat) : Store :=
  st

/-- The per-position body of the loop in `_update_portfolio_pnl_in_db`
(`price_updater.py` lines 298-351), folded over the open positions fetched
before the loop.  The accumulator carries the store and the running
(unrounded) `total_pnl`:
- no quote for the position's market → `continue` (line 300-302), nothing
  accumulated;
- unknown `action` → `continue` (lines 321-323);
- `current_price` exactly `1.0` or `0.0` → resolution: hand off to
  `_close_position_on_resolution` and `continue` without accumulating
  (lines 313-334);
- otherwise write `round(pnl, 2)` to the position row and add the
  unrounded `pnl` to `total_pnl` (lines 336-349). -/
def reprice_position_step (portfolio_id : Nat)
    (current_prices : List (String × Quote)) :
    Store × ℚ → PositionRow → Store × ℚ
  | (st, total_pnl), position =>
    match current_prices.lookup position.market_id with
    | none => (st, total_pnl)
    | some q =>
      if position.action = "buy_yes" ∨ position.action = "buy_no" then
        let current_price :=
          if position.action = "buy_yes" then q.yes_price else q.no_price
        if current_price = 1 ∨ current_price = 0 then
          (close_position_on_resolution st position current_price
            (current_price = 1) portfolio_id, total_pnl)
        else
          let position_pnl := (current_price - position.entry_price) * position.amount
          (update_portfolio_position_pnl st position.trade_id
            (round2 position_pnl) (some portfolio_id), total_pnl + position_pnl)
      else
        (st, total_pnl)

/-- `_update_portfolio_pnl_in_db` (`price_updater.py` lines 283-364): fold
the loop over the pre-fetched open positions, then overwrite the portfolio's
`total_profit_loss` with `round(total_pnl, 2)` and stamp
`last_price_update = now` (lines 353-357; `update_portfolio` also stamps
`last_updated`). -/
def update_portfolio_pnl_in_db (st : Store) (portfolio_id : Nat)
    (open_positions : List PositionRow)
    (current_prices : List (String × Quote)) (now : Nat) : Store :=
  let folded := open_positions.foldl
    (reprice_position_step portfolio_id current_prices) (st, 0)
  update_portfolio folded.1 portfolio_id
    { total_profit_loss := some (round2 folded.2),
      last_price_update := some now } now

/-- `update_open_positions_prices` for one given portfolio
(`price_updater.py` lines 63-128 with `portfolio_id` supplied): fetch that
portfolio's open positions (line 96; the loop consumes only the
truthiness-unaffected fields `trade_id`, `market_id`, `action`,
`entry_price`, `amount`, so the raw rows coincide with the dictionaries);
skip the whole pass when there are no open positions (lines 104-106) or when
the external price fetch returned nothing (lines 113-115); otherwise run
`_update_portfolio_pnl_in_db`.  (`insert_market_snapshot`, line 126, writes
a table outside this model.) -/
def reprice_portfolio (st : Store) (portfolio_id : Nat)
    (current_prices : List (String × Quote)) (now : Nat) : Store :=
  let open_positions := positionRowsOf st portfolio_id "open"
  if open_positions = [] then st
  else if current_prices = [] then st
  else update_portfolio_pnl_in_db st portfolio_id open_positions current_prices now

/-! ## `paper_trading_controller.py` — trade execution -/

/-- The signal dictionary the legacy `execute_trade` receives from its
caller.  `amount = none` models the `'amount'` key being absent, so that
`signal.get('amount', 100)` (line 121) yields the default `100`. -/
structure LegacySignal where
  market_id : String
  market_question : String
  action : String
  target_price : ℚ
  confidence : Option ℚ
  reason : String
  amount : Option ℚ
deriving DecidableEq, Repr

/-- The trade dictionary `execute_trade` builds (lines 132-148); it carries
no portfolio id (that key is added later by `insert_trade`). -/
structure TradeDict where
  trade_id : String
  timestamp : Nat
  market_id : String
  market_question : String
  action : String
  amount : ℚ
  entry_price : ℚ
  confidence : Option ℚ
  reason : String
  status : String
  current_pnl : ℚ
  realized_pnl : Option ℚ
deriving DecidableEq, Repr

/-- The in-memory portfolio dictionary `execute_trade` mutates
(lines 150-167). -/
structure LegacyPortfolio where
  balance : ℚ
  total_invested : ℚ
  trade_count : Nat
  positions : List NewPositionData
  total_profit_loss : ℚ
deriving DecidableEq, Repr

/-- The result dictionary of `execute_trade` (lines 125-129 / 169-173). -/
structure ExecTradeResult where
  status : String
  reason : String
  trade : Option TradeDict
deriving DecidableEq, Repr

/-- `execute_trade` (`paper_trading_controller.py` lines 110-173):
`trade_amount = signal.get('amount', 100)`; reject on
`portfolio['balance'] < trade_amount` (reason
`f"Insufficient balance. Required: ..., Available: ..."`, abbreviated here to
its fixed prefix); otherwise debit the in-memory portfolio, append the open
position and return the trade dictionary. -/
def execute_trade (signal : LegacySignal) (portfolio : LegacyPortfolio)
    (now : Nat) : LegacyPortfolio × ExecTradeResult :=
  let trade_amount := signal.amount.getD 100
  if portfolio.balance < trade_amount then
    (portfolio,
      { status := "failed", reason := "Insufficient balance", trade := none })
  else
    let trade : TradeDict :=
      { trade_id := "trade_" ++ toString now ++ "_" ++ signal.market_id
        timestamp := now
        market_id := signal.market_id
        market_question := signal.market_question
        action := signal.action
        amount := trade_amount
        entry_price := signal.target_price
        confidence := signal.confidence
        reason := signal.reason
        status := "open"
        current_pnl := 0
        realized_pnl := none }
    let position : NewPositionData :=
      { trade_id := trade.trade_id
        market_id := signal.market_id
        market_question := signal.market_question
        action := signal.action
        amount := trade_amount
        entry_price := signal.target_price
        entry_timestamp := now
        status := "open"
        current_pnl := 0 }
    ({ balance := portfolio.balance - trade_amount
       total_invested := portfolio.total_invested + trade_amount
       trade_count := portfolio.trade_count + 1
       positions := portfolio.positions ++ [position]
       total_profit_loss := portfolio.total_profit_loss },
     { status := "executed", reason := "Trade executed successfully",
       trade := some trade })

/-! ## `paper_trading_controller.py` — the `execute_signals` endpoint -/

/-- One entry of `execution_results` (lines 332-339, 387-394, 401-408). -/
structure SignalResult where
  market_id : String
  status : String
  reason : String
deriving DecidableEq, Repr

/-- The temporary in-memory dictionary of lines 318-324 (the fields the loop
mutates). -/
structure PortfolioDict where
  balance : ℚ
  total_invested : ℚ
  trade_count : Nat
deriving DecidableEq, Repr

/-- The trade id built at line 345:
`f"trade_{now:%Y%m%d_%H%M%S}_{market_id}_{portfolio_id}"`. -/
def mkTradeId (now : Nat) (market_id : String) (portfolio_id : Nat) : String :=
  "trade_" ++ toString now ++ "_" ++ market_id ++ "_" ++ toString portfolio_id

/-- The three durable writes one executing signal performs, in source order
(`paper_trading_controller.py` lines 367-385), each a separately committed
transaction (`insert_trade` commits at `operations.py` line 450,
`add_portfolio_position` at line 343, `mark_signal_executed` at line 763).
The portfolio debit is *not* among them: it is committed once for the whole
batch in Step 4 (lines 411-419).  Returns the three successive durable
states; the store after all three is the last entry. -/
def exec_signal_commits (st : Store) (portfolio_id : Nat) (sig : SignalRow)
    (trade_amount : ℚ) (now : Nat) : Store × Store × Store :=
  let tid := mkTradeId now sig.market_id portfolio_id
  let trade : TradeRow :=
    { portfolio_id := portfolio_id
      trade_id := tid
      timestamp := now
      market_id := sig.market_id
      market_question := sig.market_question
      action := sig.action
      amount := trade_amount
      entry_price := sig.target_price
      confidence := sig.confidence
      reason := sig.reason
      status := "open"
      current_pnl := some 0
      realized_pnl := none }
  let position : NewPositionData :=
    { trade_id := tid
      market_id := sig.market_id
      market_question := sig.market_question
      action := sig.action
      amount := trade_amount
      entry_price := sig.target_price
      entry_timestamp := now
      status := "open"
      current_pnl := 0 }
  let st1 := insert_trade st trade
  let st2 := add_portfolio_position st1 position portfolio_id
  let st3 := mark_signal_executed st2 sig.id tid now (some portfolio_id)
  (st1, st2, st3)

/-- The body of the per-signal loop (`paper_trading_controller.py` lines
326-409) on the accumulator (in-memory portfolio dictionary, durable store,
results so far):
- `trade_amount = signal.get('amount', 100)` (line 329): the dictionary from
  `get_current_signals` always carries the `'amount'` key, so a SQL `NULL`
  arrives as `None`, the comparison `balance < None` raises `TypeError`, and
  the per-signal `except` (lines 399-409) records an `"error"` result and
  continues with nothing mutated;
- insufficient balance (lines 330-341): a `"failed"` result with the
  `"Insufficient balance: $... < $..."` reason (abbreviated to its fixed
  prefix), nothing mutated;
- otherwise (lines 343-397): debit the in-memory dictionary, perform the
  three durable writes of `exec_signal_commits`, record `"executed"`. -/
def exec_one_signal (portfolio_id : Nat) (now : Nat) :
    PortfolioDict × Store × List SignalResult → SignalRow →
    PortfolioDict × Store × List SignalResult
  | (pd, st, results), sig =>
    match sig.amount with
    | none =>
      (pd, st, results ++
        [{ market_id := sig.market_id, status := "error",
           reason := "TypeError" }])
    | some trade_amount =>
      if pd.balance < trade_amount then
        (pd, st, results ++
          [{ market_id := sig.market_id, status := "failed",
             reason := "Insufficient balance" }])
      else
        let pd' : PortfolioDict :=
          { balance := pd.balance - trade_amount
            total_invested := pd.total_invested + trade_amount
            trade_count := pd.trade_count + 1 }
        let commits := exec_signal_commits st portfolio_id sig trade_amount now
        (pd', commits.2.2, results ++
          [{ market_id := sig.market_id, status := "executed",
             reason := "Trade executed successfully" }])

/-- The response shape of the `execute_signals` endpoint; `ok = false` for
the two `HTTPException` 404 branches (portfolio not found, no unexecuted
signals), in which case the store is untouched. -/
structure ExecPassResponse where
  ok : Bool
  detail : String
  results : List SignalResult
  executed_count : Nat
  failed_count : Nat
deriving DecidableEq, Repr

/-- The `execute_signals` endpoint (`paper_trading_controller.py` lines
268-462) for a given (or defaulted) portfolio id:
1. load the portfolio (404 when absent, lines 289-294);
2. load this portfolio's signals with `executed=False` (line 299); 404 when
   there are none (lines 305-307);
3. run the per-signal loop of `exec_one_signal` over them;
4. commit the batch portfolio update: `current_balance`, `total_invested`,
   `trade_count` from the in-memory dictionary and
   `last_trade_at = now` (lines 411-419; `update_portfolio` stamps
   `last_updated` as always). -/
def execute_signals (st : Store) (portfolio_id? : Option Nat) (now : Nat) :
    Store × ExecPassResponse :=
  match get_portfolio_state_opt st portfolio_id? with
  | none =>
    (st, { ok := false, detail := "Portfolio not found", results := [],
           executed_count := 0, failed_count := 0 })
  | some p =>
    let pid := p.portfolio_id
    let signals := get_current_signals st pid false
    if signals = [] then
      (st, { ok := false, detail := "No trading signals found", results := [],
             executed_count := 0, failed_count := 0 })
    else
      let init : PortfolioDict × Store × List SignalResult :=
        ({ balance := p.current_balance, total_invested := p.total_invested,
           trade_count := p.trade_count }, st, [])
      let folded := signals.foldl (exec_one_signal pid now) init
      let stF := update_portfolio folded.2.1 pid
        { current_balance := some folded.1.balance,
          total_invested := some folded.1.total_invested,
          trade_count := some folded.1.trade_count,
          last_trade_at := some now } now
      (stF,
       { ok := true, detail := "", results := folded.2.2,
         executed_count := folded.2.2.countP (fun r => r.status = "executed"),
         failed_count := folded.2.2.countP (fun r => r.status ≠ "executed") })

/-! ## `paper_trading_controller.py` — the portfolio update endpoint -/

/-- Response of the `PATCH /portfolios/{id}` endpoint: `rejected_field` is
populated by the 400 branch naming the restricted field. -/
structure UpdateResponse where
  ok : Bool
  rejected_field : Option String
  detail : String
deriving DecidableEq, Repr

/-- `update_portfolio_endpoint` (`paper_trading_controller.py` lines
623-680): verify the portfolio exists (404 otherwise, before anything else);
then scan `restricted_fields = ['portfolio_id', 'created_at',
'initial_balance']` in order and reject with the offending field's name and
no mutation; otherwise apply `update_portfolio`. -/
def update_portfolio_endpoint (st : Store) (portfolio_id : Nat)
    (updates : PortfolioUpdates) (now : Nat) : Store × UpdateResponse :=
  match get_portfolio_state st portfolio_id with
  | none =>
    (st, { ok := false, rejected_field := none,
           detail := "Portfolio not found" })
  | some _ =>
    if updates.portfolio_id.isSome then
      (st, { ok := false, rejected_field := some "portfolio_id",
             detail := "Cannot update restricted field" })
    else if updates.created_at.isSome then
      (st, { ok := false, rejected_field := some "created_at",
             detail := "Cannot update restricted field" })
    else if updates.initial_balance.isSome then
      (st, { ok := false, rejected_field := some "initial_balance",
             detail := "Cannot update restricted field" })
    else
      (update_portfolio st portfolio_id updates now,
       { ok := true, rejected_field := none,
         detail := "Portfolio updated successfully" })

/-! ## Operation sequences over the ledger -/

/-- The operations of the cash-conservation claim: a batch trade execution,
a settlement invocation, or a repricing pass. -/
inductive LedgerOp where
  | execOp (portfolio_id : Option Nat) (now : Nat)
  | settleOp (position : PositionRow) (exit_price : ℚ) (won : Bool)
      (portfolio_id : Nat)
  | repriceOp (portfolio_id : Nat) (current_prices : List (String × Quote))
      (now : Nat)

/-- Apply one ledger operation to the store. -/
def applyLedgerOp (st : Store) : LedgerOp → Store
  | .execOp pid? now => (execute_signals st pid? now).1
  | .settleOp pos ep won pid => close_position_on_resolution st pos ep won pid
  | .repriceOp pid prices now => reprice_portfolio st pid prices now

/-- Apply a sequence of ledger operations, left to right. -/
def applyLedgerOps (st : Store) : List LedgerOp → Store
  | [] => st
  | op :: rest => applyLedgerOps (applyLedgerOp st op) rest

/-! ## Concrete fixtures: the settlement scenario of spec §8.7 -/

/-- The scenario portfolio right before the settlement-triggering repricing
pass: $10000 initial, $9500 cash, $500 invested, unrealized P&L $75 from the
earlier `0.80` repricing. -/
def scenarioPortfolio : PortfolioRow :=
  { portfolio_id := 1
    name := "Scenario"
    description := ""
    strategy_type := "momentum"
    initial_balance := 10000
    current_balance := 9500
    total_invested := 500
    total_profit_loss := 75
    trade_count := 1
    status := "active"
    created_at := 0
    last_updated := 2
    strategy_config := ""
    last_trade_at := some 1
    last_price_update := some 2 }

/-- The scenario's one open position: `buy_yes`, entry 0.65, amount 500 on
market `m1`. -/
def scenarioPosition : PositionRow :=
  { portfolio_id := 1
    trade_id := "trade_1_m1_1"
    market_id := "m1"
    market_question := "Will it happen?"
    action := "buy_yes"
    amount := 500
    entry_price := 0.65
    entry_timestamp := 1
    status := "open"
    current_pnl := some 75
    realized_pnl := none
    exit_price := none
    exit_timestamp := none }

/-- The mirrored trade record of the scenario position. -/
def scenarioTrade : TradeRow :=
  { portfolio_id := 1
    trade_id := "trade_1_m1_1"
    timestamp := 1
    market_id := "m1"
    market_question := "Will it happen?"
    action := "buy_yes"
    amount := 500
    entry_price := 0.65
    confidence := some 0.9
    reason := "momentum"
    status := "open"
    current_pnl := some 75
    realized_pnl := none }

/-- The scenario store. -/
def scenarioStore : Store :=
  { portfolios := [scenarioPortfolio]
    positions := [scenarioPosition]
    trades := [scenarioTrade]
    signals := [] }

/-- The resolution quote of the scenario: `m1` at `yes_price = 1.0`. -/
def scenarioQuotes : List (String × Quote) :=
  [("m1", { yes_price := 1, no_price := 0 })]

/-- The store after the repricing pass that receives the resolution quote. -/
def scenarioAfter : Store := reprice_portfolio scenarioStore 1 scenarioQuotes 3

/-- C1 (settlement scenario): evidence that the code does NOT perform the
claimed settlement.  On the scenario store, the repricing pass detects
resolution (`yes_price` exactly 1.0) and hands off to
`_close_position_on_resolution`, whose body dies on
`from src.db.operations import ... get_portfolio` (a name `operations.py`
does not define — last conjunct) inside a blanket `except`; the position
therefore stays `open` with no `realized_pnl`, no cash returns
(balance stays 9500, invested stays 500), and the pass's final aggregate
write then overwrites `total_profit_loss` with `round(0.0, 2) = 0`, not the
claimed `175.00`.  The last three conjuncts record the values the dead
settlement arithmetic (lines 215-226) was written to produce, i.e. what the
claim expected. -/
theorem C1_settlement_scenario_code_result :
    scenarioAfter.positions = [scenarioPosition] ∧
    scenarioAfter.trades = [scenarioTrade] ∧
    (get_portfolio_state scenarioAfter 1).map (fun p => p.current_balance)
      = some 9500 ∧
    (get_portfolio_state scenarioAfter 1).map (fun p => p.total_invested)
      = some 500 ∧
    (get_portfolio_state scenarioAfter 1).map (fun p => p.total_profit_loss)
      = some 0 ∧
    resolution_realized_pnl 500 1 0.65 = 175 ∧
    resolution_cash_returned 500 true = 500 ∧
    "get_portfolio" ∉ operationsFunctionNames := by
  refine ⟨?_, ?_, ?_, ?_, ?_, ?_, ?_, ?_⟩ <;>
    simp [scenarioAfter, reprice_portfolio, positionRowsOf, scenarioStore,
      scenarioPosition, scenarioPortfolio, scenarioTrade, scenarioQuotes,
      update_portfolio_pnl_in_db, reprice_position_step,
      close_position_on_resolution, update_portfolio, applyPortfolioUpdates,
      get_portfolio_state, round2, resolution_realized_pnl,
      resolution_cash_returned, operationsFunctionNames, List.lookup] <;>
    norm_num

/-- C2 (at-most-once settlement): evidence that the claimed behaviour fails
because settlement never credits at all.  Invoking
`_close_position_on_resolution` once on the scenario's open position leaves
the balance at 9500 (no cash credit), and invoking it twice returns the
store exactly unchanged — zero credits and zero counter increments, not the
claimed "exactly one".  The root cause is the swallowed `ImportError` on
`get_portfolio` (last conjunct); note also that neither
`_close_position_on_resolution` nor `close_portfolio_position` contains any
`position.status != open` guard, so the claimed idempotence guard does not
exist as code. -/
theorem C2_settlement_silent_noop :
    close_position_on_resolution
        (close_position_on_resolution scenarioStore scenarioPosition 1 true 1)
        scenarioPosition 1 true 1 = scenarioStore ∧
    (get_portfolio_state
        (close_position_on_resolution scenarioStore scenarioPosition 1 true 1)
        1).map (fun p => p.current_balance) = some 9500 ∧
    "get_portfolio" ∉ operationsFunctionNames := by
  refine ⟨rfl, ?_, by decide⟩
  simp [close_position_on_resolution, get_portfolio_state, scenarioStore,
    scenarioPortfolio]

/-! ## C3: the repricing aggregate -/

/-- The contribution of one open position to the `total_pnl` accumulated by
the loop of `_update_portfolio_pnl_in_db`: zero when the quote is absent,
the action unknown, or the price is at a resolution extreme; the unrounded
unrealized P&L otherwise. -/
def pass_position_contribution (current_prices : List (String × Quote))
    (position : PositionRow) : ℚ :=
  match current_prices.lookup position.market_id with
  | none => 0
  | some q =>
    if position.action = "buy_yes" ∨ position.action = "buy_no" then
      let current_price :=
        if position.action = "buy_yes" then q.yes_price else q.no_price
      if current_price = 1 ∨ current_price = 0 then 0
      else (current_price - position.entry_price) * position.amount
    else 0

/-- The total the loop accumulates over a position list. -/
def pass_unrealized_sum (open_positions : List PositionRow)
    (current_prices : List (String × Quote)) : ℚ :=
  (open_positions.map (pass_position_contribution current_prices)).sum

/-- The aggregate the claim asserts, stated from the spec's words: the sum
of the unrealized P&L of all of the portfolio's open positions as the
ledger exposes them (each open position's stored `current_pnl`). -/
def spec_open_unrealized_sum (st : Store) (portfolio_id : Nat) : ℚ :=
  ((get_portfolio_positions st portfolio_id "open").map
    (fun v => v.current_pnl)).sum

theorem reprice_step_snd (portfolio_id : Nat)
    (current_prices : List (String × Quote)) (st : Store) (t : ℚ)
    (position : PositionRow) :
    (reprice_position_step portfolio_id current_prices (st, t) position).2
      = t + pass_position_contribution current_prices position := by
  simp only [reprice_position_step, pass_position_contribution]
  cases current_prices.lookup position.market_id with
  | none => simp
  | some q =>
    by_cases ha : position.action = "buy_yes" ∨ position.action = "buy_no"
    · simp only [ha, if_true]
      by_cases hr :
          (if position.action = "buy_yes" then q.yes_price else q.no_price) = 1
          ∨ (if position.action = "buy_yes" then q.yes_price else q.no_price) = 0
      · simp [hr]
      · simp [hr]
    · simp [ha]

theorem reprice_step_fst_portfolios (portfolio_id : Nat)
    (current_prices : List (String × Quote)) (st : Store) (t : ℚ)
    (position : PositionRow) :
    (reprice_position_step portfolio_id current_prices (st, t) position).1.portfolios
      = st.portfolios := by
  simp only [reprice_position_step]
  cases current_prices.lookup position.market_id with
  | none => rfl
  | some q =>
    by_cases ha : position.action = "buy_yes" ∨ position.action = "buy_no"
    · simp only [ha, if_true]
      by_cases hr :
          (if position.action = "buy_yes" then q.yes_price else q.no_price) = 1
          ∨ (if position.action = "buy_yes" then q.yes_price else q.no_price) = 0
      · simp [hr, close_position_on_resolution]
      · simp [hr, update_portfolio_position_pnl]
    · simp [ha]

theorem reprice_foldl_snd (portfolio_id : Nat)
    (current_prices : List (String × Quote)) (rows : List PositionRow) :
    ∀ (st : Store) (t : ℚ),
      (rows.foldl (reprice_position_step portfolio_id current_prices)
        (st, t)).2 = t + pass_unrealized_sum rows current_prices := by
  induction rows with
  | nil => intro st t; simp [pass_unrealized_sum]
  | cons position rest ih =>
    intro st t
    have hpair :
        reprice_position_step portfolio_id current_prices (st, t) position
          = ((reprice_position_step portfolio_id current_prices (st, t)
                position).1,
             t + pass_position_contribution current_prices position) := by
      rw [← reprice_step_snd portfolio_id current_prices st t position]
    calc (List.foldl (reprice_position_step portfolio_id current_prices)
            (st, t) (position :: rest)).2
        = (rest.foldl (reprice_position_step portfolio_id current_prices)
            ((reprice_position_step portfolio_id current_prices (st, t)
                position).1,
             t + pass_position_contribution current_prices position)).2 := by
          rw [List.foldl_cons, ← hpair]
      _ = t + pass_position_contribution current_prices position
            + pass_unrealized_sum rest current_prices := by rw [ih]
      _ = t + pass_unrealized_sum (position :: rest) current_prices := by
          simp [pass_unrealized_sum]; ring

theorem reprice_foldl_portfolios (portfolio_id : Nat)
    (current_prices : List (String × Quote)) (rows : List PositionRow) :
    ∀ (st : Store) (t : ℚ),
      (rows.foldl (reprice_position_step portfolio_id current_prices)
        (st, t)).1.portfolios = st.portfolios := by
  induction rows with
  | nil => intro st t; rfl
  | cons position rest ih =>
    intro st t
    rw [List.foldl_cons,
      show reprice_position_step portfolio_id current_prices (st, t) position
        = ((reprice_position_step portfolio_id current_prices (st, t)
            position).1,
           (reprice_position_step portfolio_id current_prices (st, t)
            position).2) from rfl,
      ih]
    exact reprice_step_fst_portfolios portfolio_id current_prices st t position

theorem get_portfolio_state_update_portfolio (st : Store) (portfolio_id : Nat)
    (u : PortfolioUpdates) (now : Nat) (hpid : u.portfolio_id = none) :
    get_portfolio_state (update_portfolio st portfolio_id u now) portfolio_id
      = (get_portfolio_state st portfolio_id).map
          (applyPortfolioUpdates u now) := by
  simp only [get_portfolio_state, update_portfolio]
  induction st.portfolios with
  | nil => rfl
  | cons p rest ih =>
    by_cases h : p.portfolio_id = portfolio_id
    · have h2 : (applyPortfolioUpdates u now p).portfolio_id = portfolio_id := by
        simp [applyPortfolioUpdates, hpid, h]
      simp [List.find?_cons, h, h2]
    · simp only [List.map_cons, if_neg h]
      rw [List.find?_cons_of_neg _ (by simpa using h),
        List.find?_cons_of_neg _ (by simpa using h)]
      exact ih

/-- A portfolio whose `total_profit_loss` still carries a previously
accumulated value (as the claim's reading would have Settlement leave it). -/
def c3Portfolio : PortfolioRow :=
  { portfolio_id := 2
    name := "C3"
    description := ""
    strategy_type := "momentum"
    initial_balance := 10000
    current_balance := 9900
    total_invested := 100
    total_profit_loss := 175
    trade_count := 2
    status := "active"
    created_at := 0
    last_updated := 5
    strategy_config := ""
    last_trade_at := some 4
    last_price_update := some 5 }

/-- An open position on market `m2` with a previously stored unrealized P&L
of 5. -/
def c3Position : PositionRow :=
  { portfolio_id := 2
    trade_id := "trade_4_m2_2"
    market_id := "m2"
    market_question := "Another question?"
    action := "buy_yes"
    amount := 100
    entry_price := 0.40
    entry_timestamp := 4
    status := "open"
    current_pnl := some 5
    realized_pnl := none
    exit_price := none
    exit_timestamp := none }

/-- The C3 store. -/
def c3Store : Store :=
  { portfolios := [c3Portfolio]
    positions := [c3Position]
    trades := []
    signals := [] }

/-- A non-empty quote batch that carries no quote for `m2` (the position's
market was stale/unavailable in this pass, spec §4.2 step 1). -/
def c3Quotes : List (String × Quote) :=
  [("other_market", { yes_price := 0.5, no_price := 0.5 })]

/-- The C3 store after the repricing pass. -/
def c3After : Store := reprice_portfolio c3Store 2 c3Quotes 9

/-- C3 counterexample: after a repricing pass in which the one open
position's quote is absent, the code overwrites the portfolio's
`total_profit_loss` with `round(0.0, 2) = 0`, while the claim's aggregate —
the sum of all open positions' unrealized P&L, absent-quote positions at
their previously stored value — is 5 (and the previously accumulated 175 is
discarded outright).  The claimed equality is therefore false on the
code. -/
theorem C3_counterexample :
    (get_portfolio_state c3After 2).map (fun p => p.total_profit_loss)
      = some 0 ∧
    spec_open_unrealized_sum c3After 2 = 5 ∧
    ¬ ((get_portfolio_state c3After 2).map (fun p => p.total_profit_loss)
        = some (spec_open_unrealized_sum c3After 2)) := by
  have h1 : (get_portfolio_state c3After 2).map (fun p => p.total_profit_loss)
      = some 0 := by
    simp [c3After, reprice_portfolio, positionRowsOf, c3Store, c3Position,
      c3Portfolio, c3Quotes, update_portfolio_pnl_in_db,
      reprice_position_step, update_portfolio, applyPortfolioUpdates,
      get_portfolio_state, round2, List.lookup]
    norm_num
  have h2 : spec_open_unrealized_sum c3After 2 = 5 := by
    simp [c3After, reprice_portfolio, positionRowsOf, c3Store, c3Position,
      c3Portfolio, c3Quotes, update_portfolio_pnl_in_db,
      reprice_position_step, update_portfolio, applyPortfolioUpdates,
      spec_open_unrealized_sum, get_portfolio_positions, readPositionRow,
      floatOrZero, List.lookup]
  refine ⟨h1, h2, ?_⟩
  rw [h1, h2]
  intro h
  have := Option.some.inj h
  norm_num at this

/-- C3 amended: after a repricing pass over a portfolio (with at least one
open position and a non-empty quote batch), the portfolio's
`total_profit_loss` is *overwritten* with the rounded sum of the unrealized
P&L computed in this pass for open positions whose quote is present, whose
action is known and whose price is not at a resolution extreme; open
positions with absent quotes contribute nothing (their stored `current_pnl`
is excluded from the aggregate), any previously accumulated value —
including realized P&L a settlement would have added — is discarded, and
`last_price_update` is stamped. -/
theorem C3_repricing_aggregate_amended (st : Store) (portfolio_id : Nat)
    (current_prices : List (String × Quote)) (now : Nat) (p : PortfolioRow)
    (hp : get_portfolio_state st portfolio_id = some p)
    (hopen : positionRowsOf st portfolio_id "open" ≠ [])
    (hprices : current_prices ≠ []) :
    get_portfolio_state (reprice_portfolio st portfolio_id current_prices now)
        portfolio_id
      = some { p with
          total_profit_loss :=
            round2 (pass_unrealized_sum
              (positionRowsOf st portfolio_id "open") current_prices),
          last_price_update := some now,
          last_updated := now } := by
  rw [reprice_portfolio]
  simp only [if_neg hopen, if_neg hprices]
  rw [update_portfolio_pnl_in_db,
    get_portfolio_state_update_portfolio _ _ _ _ rfl]
  have hport :
      get_portfolio_state
        ((List.foldl (reprice_position_step portfolio_id current_prices)
          (st, 0) (positionRowsOf st portfolio_id "open")).1) portfolio_id
      = get_portfolio_state st portfolio_id := by
    simp only [get_portfolio_state]
    rw [reprice_foldl_portfolios]
  rw [hport, hp, reprice_foldl_snd]
  simp [applyPortfolioUpdates]

/-- Witness for `C3_repricing_aggregate_amended` at the C3 fixture. -/
theorem C3_repricing_aggregate_amended_witness :
    get_portfolio_state c3Store 2 = some c3Portfolio ∧
    positionRowsOf c3Store 2 "open" ≠ [] ∧
    c3Quotes ≠ [] ∧
    get_portfolio_state (reprice_portfolio c3Store 2 c3Quotes 9) 2
      = some { c3Portfolio with
          total_profit_loss :=
            round2 (pass_unrealized_sum (positionRowsOf c3Store 2 "open")
              c3Quotes),
          last_price_update := some 9,
          last_updated := 9 } := by
  refine ⟨rfl, ?_, ?_, ?_⟩
  · simp [positionRowsOf, c3Store, c3Position]
  · simp [c3Quotes]
  · exact C3_repricing_aggregate_amended c3Store 2 c3Quotes 9 c3Portfolio rfl
      (by simp [positionRowsOf, c3Store, c3Position]) (by simp [c3Quotes])

/-! ## C4: cash conservation -/

/-- Every portfolio's cash balance is non-negative. -/
def AllBalancesNonneg (st : Store) : Prop :=
  ∀ p ∈ st.portfolios, 0 ≤ p.current_balance

theorem exec_one_signal_portfolios (portfolio_id now : Nat) (pd : PortfolioDict)
    (st : Store) (res : List SignalResult) (sig : SignalRow) :
    ((exec_one_signal portfolio_id now (pd, st, res) sig).2.1).portfolios
      = st.portfolios := by
  simp only [exec_one_signal]
  cases sig.amount with
  | none => rfl
  | some a =>
    by_cases h : pd.balance < a
    · simp [h]
    · simp [h, exec_signal_commits, mark_signal_executed,
        add_portfolio_position, insert_trade]

theorem exec_one_signal_balance (portfolio_id now : Nat) (pd : PortfolioDict)
    (st : Store) (res : List SignalResult) (sig : SignalRow) :
    (exec_one_signal portfolio_id now (pd, st, res) sig).1.balance = pd.balance
    ∨ ∃ a, sig.amount = some a ∧ ¬ pd.balance < a ∧
        (exec_one_signal portfolio_id now (pd, st, res) sig).1.balance
          = pd.balance - a := by
  simp only [exec_one_signal]
  cases sig.amount with
  | none => exact Or.inl rfl
  | some a =>
    by_cases h : pd.balance < a
    · simp [h]
    · exact Or.inr ⟨a, rfl, h, by simp [h]⟩

theorem exec_one_signal_reject (portfolio_id now : Nat) (pd : PortfolioDict)
    (st : Store) (res : List SignalResult) (sig : SignalRow) (a : ℚ)
    (ha : sig.amount = some a) (hlt : pd.balance < a) :
    exec_one_signal portfolio_id now (pd, st, res) sig
      = (pd, st, res ++ [⟨sig.market_id, "failed", "Insufficient balance"⟩])
      := by
  simp [exec_one_signal, ha, hlt]

theorem exec_foldl_portfolios (portfolio_id now : Nat)
    (signals : List SignalRow) :
    ∀ (pd : PortfolioDict) (st : Store) (res : List SignalResult),
      ((signals.foldl (exec_one_signal portfolio_id now)
        (pd, st, res)).2.1).portfolios = st.portfolios := by
  induction signals with
  | nil => intro pd st res; rfl
  | cons sig rest ih =>
    intro pd st res
    rw [List.foldl_cons,
      show exec_one_signal portfolio_id now (pd, st, res) sig
        = ((exec_one_signal portfolio_id now (pd, st, res) sig).1,
           (exec_one_signal portfolio_id now (pd, st, res) sig).2.1,
           (exec_one_signal portfolio_id now (pd, st, res) sig).2.2) from rfl,
      ih]
    exact exec_one_signal_portfolios portfolio_id now pd st res sig

theorem exec_foldl_balance_nonneg (portfolio_id now : Nat)
    (signals : List SignalRow) :
    ∀ (pd : PortfolioDict) (st : Store) (res : List SignalResult),
      0 ≤ pd.balance →
      0 ≤ ((signals.foldl (exec_one_signal portfolio_id now)
        (pd, st, res)).1).balance := by
  induction signals with
  | nil => intro pd st res h; exact h
  | cons sig rest ih =>
    intro pd st res h
    rw [List.foldl_cons,
      show exec_one_signal portfolio_id now (pd, st, res) sig
        = ((exec_one_signal portfolio_id now (pd, st, res) sig).1,
           (exec_one_signal portfolio_id now (pd, st, res) sig).2.1,
           (exec_one_signal portfolio_id now (pd, st, res) sig).2.2) from rfl]
    refine ih _ _ _ ?_
    rcases exec_one_signal_balance portfolio_id now pd st res sig with hb | ⟨a, _, hle, hb⟩
    · rw [hb]; exact h
    · rw [hb]
      have : a ≤ pd.balance := le_of_not_lt hle
      linarith

theorem update_portfolio_nonneg (st : Store) (portfolio_id : Nat)
    (u : PortfolioUpdates) (now : Nat) (h : AllBalancesNonneg st)
    (hb : ∀ b, u.current_balance = some b → 0 ≤ b) :
    AllBalancesNonneg (update_portfolio st portfolio_id u now) := by
  intro q hq
  simp only [update_portfolio, List.mem_map] at hq
  obtain ⟨p, hp, rfl⟩ := hq
  by_cases hid : p.portfolio_id = portfolio_id
  · simp only [if_pos hid, applyPortfolioUpdates]
    cases hcb : u.current_balance with
    | none => simpa [hcb] using h p hp
    | some b => simpa [hcb] using hb b hcb
  · simpa [if_neg hid] using h p hp

theorem update_portfolio_balances (st : Store) (portfolio_id : Nat)
    (u : PortfolioUpdates) (now : Nat) (hu : u.current_balance = none) :
    (update_portfolio st portfolio_id u now).portfolios.map
        (fun q => q.current_balance)
      = st.portfolios.map (fun q => q.current_balance) := by
  simp only [update_portfolio]
  induction st.portfolios with
  | nil => rfl
  | cons p rest ih =>
    simp only [List.map_cons] at ih ⊢
    rw [ih]
    by_cases h : p.portfolio_id = portfolio_id
    · simp [h, applyPortfolioUpdates, hu]
    · simp [h]

theorem nonneg_of_balances_eq (st st' : Store)
    (heq : st'.portfolios.map (fun q => q.current_balance)
      = st.portfolios.map (fun q => q.current_balance))
    (h : AllBalancesNonneg st) : AllBalancesNonneg st' := by
  intro q hq
  have : q.current_balance ∈ st'.portfolios.map (fun q => q.current_balance) :=
    List.mem_map_of_mem _ hq
  rw [heq] at this
  obtain ⟨p, hp, hpq⟩ := List.mem_map.mp this
  rw [← hpq]
  exact h p hp

theorem get_portfolio_state_opt_mem (st : Store) (portfolio_id? : Option Nat)
    (p : PortfolioRow) (hp : get_portfolio_state_opt st portfolio_id? = some p) :
    p ∈ st.portfolios := by
  cases portfolio_id? with
  | some pid =>
    exact List.mem_of_find?_eq_some hp
  | none =>
    simp only [get_portfolio_state_opt, Option.bind_eq_some] at hp
    obtain ⟨pid, _, hfind⟩ := hp
    exact List.mem_of_find?_eq_some hfind

theorem reprice_portfolio_balances (st : Store) (portfolio_id : Nat)
    (current_prices : List (String × Quote)) (now : Nat) :
    (reprice_portfolio st portfolio_id current_prices now).portfolios.map
        (fun q => q.current_balance)
      = st.portfolios.map (fun q => q.current_balance) := by
  rw [reprice_portfolio]
  by_cases h1 : positionRowsOf st portfolio_id "open" = []
  · simp [h1]
  · by_cases h2 : current_prices = []
    · simp [h1, h2]
    · simp only [if_neg h1, if_neg h2, update_portfolio_pnl_in_db]
      rw [update_portfolio_balances _ _ _ _ rfl]
      congr 1
      exact reprice_foldl_portfolios portfolio_id current_prices _ st 0

theorem execute_signals_nonneg (st : Store) (portfolio_id? : Option Nat)
    (now : Nat) (h : AllBalancesNonneg st) :
    AllBalancesNonneg (execute_signals st portfolio_id? now).1 := by
  rw [execute_signals]
  cases hp : get_portfolio_state_opt st portfolio_id? with
  | none => exact h
  | some p =>
    by_cases hs : get_current_signals st p.portfolio_id false = []
    · simp only [hs, if_pos rfl]
      exact h
    · simp only [if_neg hs]
      refine update_portfolio_nonneg _ _ _ _ ?_ ?_
      · refine nonneg_of_balances_eq st _ ?_ h
        congr 1
        exact exec_foldl_portfolios _ _ _ _ st _
      · intro b hbeq
        have hb0 : 0 ≤ p.current_balance :=
          h p (get_portfolio_state_opt_mem st portfolio_id? p hp)
        have := exec_foldl_balance_nonneg p.portfolio_id now
          (get_current_signals st p.portfolio_id false)
          { balance := p.current_balance, total_invested := p.total_invested,
            trade_count := p.trade_count } st [] hb0
        simp only [Option.some.injEq] at hbeq
        rw [← hbeq]
        exact this

theorem applyLedgerOp_nonneg (st : Store) (op : LedgerOp)
    (h : AllBalancesNonneg st) : AllBalancesNonneg (applyLedgerOp st op) := by
  cases op with
  | execOp pid? now => exact execute_signals_nonneg st pid? now h
  | settleOp pos ep won pid => exact h
  | repriceOp pid prices now =>
    exact nonneg_of_balances_eq st _
      (reprice_portfolio_balances st pid prices now) h

theorem applyLedgerOps_nonneg (ops : List LedgerOp) :
    ∀ st : Store, AllBalancesNonneg st →
      AllBalancesNonneg (applyLedgerOps st ops) := by
  induction ops with
  | nil => intro st h; exact h
  | cons op rest ih =>
    intro st h
    exact ih _ (applyLedgerOp_nonneg st op h)

/-- C4 (cash conservation): over any sequence of execute / settle / reprice
operations, every portfolio balance stays non-negative; a settlement
invocation leaves the store exactly unchanged (the silent-import no-op — so
it certainly never subtracts); a repricing pass never changes any
portfolio's `current_balance`; each executed signal changes the in-memory
balance only by `- amount` under the guard `¬ balance < amount` (and any
other outcome leaves it unchanged); and a signal whose amount exceeds the
balance is rejected with the balance left exactly as it was — rejected, not
clamped. -/
theorem C4_cash_conservation (st : Store) (h : AllBalancesNonneg st) :
    (∀ ops : List LedgerOp, AllBalancesNonneg (applyLedgerOps st ops)) ∧
    (∀ position exit_price won portfolio_id,
      applyLedgerOp st (.settleOp position exit_price won portfolio_id) = st) ∧
    (∀ portfolio_id current_prices now,
      (applyLedgerOp st
          (.repriceOp portfolio_id current_prices now)).portfolios.map
          (fun q => q.current_balance)
        = st.portfolios.map (fun q => q.current_balance)) ∧
    (∀ portfolio_id now pd st0 res sig,
      (exec_one_signal portfolio_id now (pd, st0, res) sig).1.balance
          = pd.balance
      ∨ ∃ a, sig.amount = some a ∧ ¬ pd.balance < a ∧
          (exec_one_signal portfolio_id now (pd, st0, res) sig).1.balance
            = pd.balance - a) ∧
    (∀ portfolio_id now pd st0 res sig a,
      sig.amount = some a → pd.balance < a →
      exec_one_signal portfolio_id now (pd, st0, res) sig
        = (pd, st0, res ++
            [⟨sig.market_id, "failed", "Insufficient balance"⟩])) := by
  refine ⟨fun ops => applyLedgerOps_nonneg ops st h,
    fun pos ep won pid => rfl,
    fun pid prices now => reprice_portfolio_balances st pid prices now,
    fun pid now pd st0 res sig =>
      exec_one_signal_balance pid now pd st0 res sig,
    fun pid now pd st0 res sig a ha hlt =>
      exec_one_signal_reject pid now pd st0 res sig a ha hlt⟩

/-- Witness for `C4_cash_conservation` on the scenario store with a concrete
operation sequence. -/
theorem C4_cash_conservation_witness :
    AllBalancesNonneg scenarioStore ∧
    AllBalancesNonneg (applyLedgerOps scenarioStore
      [.repriceOp 1 scenarioQuotes 3, .settleOp scenarioPosition 1 true 1,
       .execOp (some 1) 4]) :=
  ⟨by intro p hp
      simp only [scenarioStore, List.mem_singleton] at hp
      subst hp
      norm_num [scenarioPortfolio],
   (C4_cash_conservation scenarioStore (by
      intro p hp
      simp only [scenarioStore, List.mem_singleton] at hp
      subst hp
      norm_num [scenarioPortfolio])).1
     [.repriceOp 1 scenarioQuotes 3, .settleOp scenarioPosition 1 true 1,
      .execOp (some 1) 4]⟩

/-! ## C5: commit granularity of signal execution -/

/-- A fresh portfolio for the execution claims: id 3, balance 1000. -/
def c5Portfolio : PortfolioRow :=
  { portfolio_id := 3
    name := "C5"
    description := ""
    strategy_type := "momentum"
    initial_balance := 1000
    current_balance := 1000
    total_invested := 0
    total_profit_loss := 0
    trade_count := 0
    status := "active"
    created_at := 0
    last_updated := 0
    strategy_config := ""
    last_trade_at := none
    last_price_update := none }

/-- An unexecuted $200 signal for portfolio 3. -/
def c5Signal : SignalRow :=
  { id := 7
    portfolio_id := 3
    market_id := "m3"
    market_question := "Will this resolve?"
    action := "buy_yes"
    target_price := 0.30
    amount := some 200
    confidence := some 0.8
    reason := "momentum"
    executed := false
    executed_at := none
    trade_id := none }

/-- The C5 store. -/
def c5Store : Store :=
  { portfolios := [c5Portfolio]
    positions := []
    trades := []
    signals := [c5Signal] }

/-- C5 counterexample: the durable state after the first of the three
separately committed writes of one signal execution (the `insert_trade`
commit, `operations.py` line 450) already holds the Trade while the
Position does not exist, the portfolio is not yet debited and the signal is
not yet marked — exactly the partially applied state the claim says is
never observable. -/
theorem C5_counterexample :
    ((exec_signal_commits c5Store 3 c5Signal 200 6).1.trades.map
      (fun t => t.trade_id)) = [mkTradeId 6 "m3" 3] ∧
    (exec_signal_commits c5Store 3 c5Signal 200 6).1.positions = [] ∧
    ((get_portfolio_state (exec_signal_commits c5Store 3 c5Signal 200 6).1
        3).map (fun p => p.current_balance)) = some 1000 ∧
    ((exec_signal_commits c5Store 3 c5Signal 200 6).1.signals.map
      (fun s => s.executed)) = [false] := by
  refine ⟨?_, rfl, ?_, ?_⟩ <;>
    simp [exec_signal_commits, insert_trade, c5Store, c5Signal, c5Portfolio,
      get_portfolio_state, mkTradeId]

/-- C5 amended: the four mutations of one signal execution are not one
transaction.  The Trade insert, the Position insert and the Signal mark are
three separately committed transactions applied in that order, and the
portfolio debit is committed only once for the whole batch afterwards; so
after the first commit the Trade exists with no Position, after the second
both exist while the Signal is unmarked, and after all three the portfolio
rows are still untouched (the debit is not yet applied).  A storage failure
between two of these commits therefore leaves a partially applied signal
execution observable. -/
theorem C5_execution_commit_granularity (st : Store) (portfolio_id : Nat)
    (sig : SignalRow) (trade_amount : ℚ) (now : Nat) :
    (∃ t : TradeRow,
      (exec_signal_commits st portfolio_id sig trade_amount now).1.trades
          = st.trades ++ [t]
        ∧ t.trade_id = mkTradeId now sig.market_id portfolio_id) ∧
    (exec_signal_commits st portfolio_id sig trade_amount now).1.positions
      = st.positions ∧
    (exec_signal_commits st portfolio_id sig trade_amount now).1.signals
      = st.signals ∧
    (exec_signal_commits st portfolio_id sig trade_amount now).1.portfolios
      = st.portfolios ∧
    (∃ r : PositionRow,
      (exec_signal_commits st portfolio_id sig trade_amount now).2.1.positions
          = st.positions ++ [r]
        ∧ r.trade_id = mkTradeId now sig.market_id portfolio_id) ∧
    (exec_signal_commits st portfolio_id sig trade_amount now).2.1.signals
      = st.signals ∧
    (exec_signal_commits st portfolio_id sig trade_amount now).2.1.portfolios
      = st.portfolios ∧
    (exec_signal_commits st portfolio_id sig trade_amount now).2.2.portfolios
      = st.portfolios :=
  ⟨⟨_, rfl, rfl⟩, rfl, rfl, rfl, ⟨_, rfl, rfl⟩, rfl, rfl, rfl⟩

/-! ## C6: insufficient-funds rejection -/

/-- The spec §8.6 portfolio: balance $50. -/
def c6Portfolio : PortfolioRow :=
  { portfolio_id := 5
    name := "C6"
    description := ""
    strategy_type := "momentum"
    initial_balance := 50
    current_balance := 50
    total_invested := 0
    total_profit_loss := 0
    trade_count := 0
    status := "active"
    created_at := 0
    last_updated := 0
    strategy_config := ""
    last_trade_at := none
    last_price_update := none }

/-- The spec §8.6 signal: amount $100. -/
def c6Signal : SignalRow :=
  { id := 11
    portfolio_id := 5
    market_id := "m5"
    market_question := "Too expensive?"
    action := "buy_yes"
    target_price := 0.50
    amount := some 100
    confidence := some 0.9
    reason := "momentum"
    executed := false
    executed_at := none
    trade_id := none }

/-- The C6 store. -/
def c6Store : Store :=
  { portfolios := [c6Portfolio]
    positions := []
    trades := []
    signals := [c6Signal] }

/-- C6 (insufficient-funds rejection): any signal whose amount exceeds the
running balance is answered with a "failed / Insufficient balance" result
and leaves the in-memory portfolio and the durable store exactly unchanged;
and on the spec's concrete $50-portfolio/$100-signal example the whole
endpoint pass creates no Position and no Trade, marks no signal, and leaves
the balance at $50. -/
theorem C6_insufficient_balance_rejection :
    (∀ portfolio_id now pd st res sig a,
      sig.amount = some a → pd.balance < a →
      exec_one_signal portfolio_id now (pd, st, res) sig
        = (pd, st, res ++
            [⟨sig.market_id, "failed", "Insufficient balance"⟩])) ∧
    (execute_signals c6Store (some 5) 9).1.positions = [] ∧
    (execute_signals c6Store (some 5) 9).1.trades = [] ∧
    (execute_signals c6Store (some 5) 9).1.signals = c6Store.signals ∧
    ((get_portfolio_state (execute_signals c6Store (some 5) 9).1 5).map
      (fun p => p.current_balance)) = some 50 ∧
    (execute_signals c6Store (some 5) 9).2.results
      = [⟨"m5", "failed", "Insufficient balance"⟩] := by
  have hlt : (50 : ℚ) < 100 := by norm_num
  refine ⟨fun portfolio_id now pd st res sig a ha h =>
    exec_one_signal_reject portfolio_id now pd st res sig a ha h,
    ?_, ?_, ?_, ?_, ?_⟩ <;>
    simp [execute_signals, get_portfolio_state_opt, get_portfolio_state,
      c6Store, c6Portfolio, c6Signal, get_current_signals, exec_one_signal,
      update_portfolio, applyPortfolioUpdates, hlt]

/-- Witness for `C6_insufficient_balance_rejection` instantiating the
general rejection conjunct at a concrete state. -/
theorem C6_insufficient_balance_rejection_witness :
    exec_one_signal 5 9 (⟨50, 0, 0⟩, c6Store, []) c6Signal
      = (⟨50, 0, 0⟩, c6Store,
         [⟨"m5", "failed", "Insufficient balance"⟩]) :=
  C6_insufficient_balance_rejection.1 5 9 ⟨50, 0, 0⟩ c6Store [] c6Signal 100
    rfl (by norm_num)

/-! ## C7: at-most-once signal execution -/

theorem get_current_signals_after_mark (st : Store) (sigid pid : Nat)
    (tid : String) (now : Nat)
    (hl : ∀ s ∈ st.signals, s.portfolio_id = pid → s.executed = false →
      s.id = sigid) :
    get_current_signals (mark_signal_executed st sigid tid now (some pid))
      pid false = [] := by
  simp only [get_current_signals, mark_signal_executed]
  rw [List.filter_eq_nil_iff]
  intro x hx
  obtain ⟨s, hs, rfl⟩ := List.mem_map.mp hx
  by_cases hc : s.id = sigid ∧ pidMatches (some pid) s.portfolio_id
  · simp [hc]
  · simp only [if_neg hc, decide_eq_true_eq, not_and]
    intro hpid hex
    exact absurd ⟨hl s hs hpid hex, by simp [pidMatches, hpid]⟩ hc

/-- C7 (at-most-once execution): from a state whose only pending signal for
the portfolio is `sig` (with sufficient balance), the first
`execute_signals` pass appends exactly one Position and exactly one Trade
(both under the generated trade id), marks every signal row matching
`sig`'s id as executed with a link to that trade id, and a second
invocation of the endpoint returns the store exactly unchanged together
with the 404 "No trading signals found" rejection — it never creates a
second position. -/
theorem C7_at_most_once_execution (st : Store) (pid : Nat) (sig : SignalRow)
    (p : PortfolioRow) (a : ℚ) (now now2 : Nat)
    (hp : get_portfolio_state st pid = some p)
    (hsig : get_current_signals st pid false = [sig])
    (ha : sig.amount = some a)
    (hbal : ¬ p.current_balance < a) :
    (∃ r : PositionRow,
      (execute_signals st (some pid) now).1.positions = st.positions ++ [r] ∧
      r.trade_id = mkTradeId now sig.market_id pid) ∧
    (∃ t : TradeRow,
      (execute_signals st (some pid) now).1.trades = st.trades ++ [t] ∧
      t.trade_id = mkTradeId now sig.market_id pid) ∧
    (∀ s' ∈ (execute_signals st (some pid) now).1.signals,
      s'.id = sig.id → s'.portfolio_id = pid →
      s'.executed = true ∧
      s'.trade_id = some (mkTradeId now sig.market_id pid)) ∧
    execute_signals (execute_signals st (some pid) now).1 (some pid) now2
      = ((execute_signals st (some pid) now).1,
         ⟨false, "No trading signals found", [], 0, 0⟩) := by
  have hpid : p.portfolio_id = pid := by
    have h1 := List.find?_some hp
    simpa using h1
  have hopt : get_portfolio_state_opt st (some pid) = some p := hp
  have hrun1 : (execute_signals st (some pid) now).1
      = update_portfolio ((exec_signal_commits st pid sig a now).2.2) pid
          { current_balance := some (p.current_balance - a),
            total_invested := some (p.total_invested + a),
            trade_count := some (p.trade_count + 1),
            last_trade_at := some now } now := by
    rw [execute_signals]
    simp only [hopt, hpid, hsig]
    simp only [List.cons_ne_nil, if_neg, List.foldl_cons, List.foldl_nil,
      exec_one_signal, ha]
    simp only [if_neg hbal]
    simp
  refine ⟨?_, ?_, ?_, ?_⟩
  · rw [hrun1]
    simp only [update_portfolio, exec_signal_commits, mark_signal_executed,
      add_portfolio_position, insert_trade]
    exact ⟨_, rfl, rfl⟩
  · rw [hrun1]
    simp only [update_portfolio, exec_signal_commits, mark_signal_executed,
      add_portfolio_position, insert_trade]
    exact ⟨_, rfl, rfl⟩
  · rw [hrun1]
    simp only [update_portfolio, exec_signal_commits, mark_signal_executed,
      add_portfolio_position, insert_trade]
    intro s' hs' h1 h2
    obtain ⟨s, hs, rfl⟩ := List.mem_map.mp hs'
    by_cases hc : s.id = sig.id ∧ pidMatches (some pid) s.portfolio_id
    · simp [hc]
    · simp only [if_neg hc] at h1 h2 ⊢
      exact absurd ⟨h1, by simp [pidMatches, h2]⟩ hc
  · have hsignals2 :
        get_current_signals (execute_signals st (some pid) now).1 pid false
          = [] := by
      rw [hrun1]
      have heq : get_current_signals
          (update_portfolio ((exec_signal_commits st pid sig a now).2.2) pid
            { current_balance := some (p.current_balance - a),
              total_invested := some (p.total_invested + a),
              trade_count := some (p.trade_count + 1),
              last_trade_at := some now } now) pid false
          = get_current_signals ((exec_signal_commits st pid sig a now).2.2)
              pid false := rfl
      rw [heq]
      show get_current_signals
        (mark_signal_executed
          (add_portfolio_position
            (insert_trade st _) _ pid) sig.id
          (mkTradeId now sig.market_id pid) now (some pid)) pid false = []
      apply get_current_signals_after_mark
      intro s hs hspid hsex
      have hmem : s ∈ get_current_signals st pid false := by
        simp only [get_current_signals, List.mem_filter]
        refine ⟨hs, ?_⟩
        simp [hspid, hsex]
      rw [hsig] at hmem
      simp only [List.mem_singleton] at hmem
      rw [hmem]
    have hp2 : get_portfolio_state_opt (execute_signals st (some pid) now).1
        (some pid)
        = some (applyPortfolioUpdates
            { current_balance := some (p.current_balance - a),
              total_invested := some (p.total_invested + a),
              trade_count := some (p.trade_count + 1),
              last_trade_at := some now } now p) := by
      show get_portfolio_state (execute_signals st (some pid) now).1 pid = _
      rw [hrun1, get_portfolio_state_update_portfolio _ _ _ _ rfl]
      have hports : get_portfolio_state
          ((exec_signal_commits st pid sig a now).2.2) pid
          = get_portfolio_state st pid := rfl
      rw [hports, hp]
      rfl
    have hpid2 : (applyPortfolioUpdates
        { current_balance := some (p.current_balance - a),
          total_invested := some (p.total_invested + a),
          trade_count := some (p.trade_count + 1),
          last_trade_at := some now } now p).portfolio_id = pid := by
      simp [applyPortfolioUpdates, hpid]
    rw [execute_signals]
    simp only [hp2, hpid2, hsignals2]
    simp

/-- Witness for `C7_at_most_once_execution` at a concrete single-signal
store. -/
theorem C7_at_most_once_execution_witness :
    get_portfolio_state c5Store 3 = some c5Portfolio ∧
    get_current_signals c5Store 3 false = [c5Signal] ∧
    ¬ c5Portfolio.current_balance < (200 : ℚ) ∧
    execute_signals (execute_signals c5Store (some 3) 6).1 (some 3) 8
      = ((execute_signals c5Store (some 3) 6).1,
         ⟨false, "No trading signals found", [], 0, 0⟩) := by
  have hbal : ¬ c5Portfolio.current_balance < (200 : ℚ) := by
    norm_num [c5Portfolio]
  exact ⟨rfl, rfl, hbal,
    (C7_at_most_once_execution c5Store 3 c5Signal c5Portfolio 200 6 8 rfl rfl
      rfl hbal).2.2.2⟩

/-! ## C8: position lifecycle invariant -/

/-- The stored-row form of the lifecycle invariant: a position row is `open`
iff its `realized_pnl` is `NULL` iff its `exit_price` is `NULL`. -/
def PositionInvariant (st : Store) : Prop :=
  ∀ r ∈ st.positions,
    (r.status = "open" ↔ r.realized_pnl = none) ∧
    (r.realized_pnl = none ↔ r.exit_price = none)

/-- Portfolio 6 for the lifecycle claims. -/
def c8Portfolio : PortfolioRow :=
  { portfolio_id := 6
    name := "C8"
    description := ""
    strategy_type := "momentum"
    initial_balance := 1000
    current_balance := 400
    total_invested := 600
    total_profit_loss := 0
    trade_count := 2
    status := "active"
    created_at := 0
    last_updated := 1
    strategy_config := ""
    last_trade_at := some 1
    last_price_update := none }

/-- Open position `t8a` (will lose: resolves at 0.0). -/
def c8PositionA : PositionRow :=
  { portfolio_id := 6
    trade_id := "t8a"
    market_id := "m8a"
    market_question := "Loses?"
    action := "buy_yes"
    amount := 500
    entry_price := 0.65
    entry_timestamp := 1
    status := "open"
    current_pnl := some 0
    realized_pnl := none
    exit_price := none
    exit_timestamp := none }

/-- Open position `t8b` (will close with realized P&L exactly 0). -/
def c8PositionB : PositionRow :=
  { portfolio_id := 6
    trade_id := "t8b"
    market_id := "m8b"
    market_question := "Breaks even?"
    action := "buy_yes"
    amount := 100
    entry_price := 1
    entry_timestamp := 1
    status := "open"
    current_pnl := some 0
    realized_pnl := none
    exit_price := none
    exit_timestamp := none }

/-- The C8 store. -/
def c8Store : Store :=
  { portfolios := [c8Portfolio]
    positions := [c8PositionA, c8PositionB]
    trades := []
    signals := [] }

/-- The C8 store after both closes: `t8a` at `exit_price 0.0`
(`realized_pnl -325`), `t8b` at `exit_price 1.0` (`realized_pnl` exactly
0). -/
def c8Closed : Store :=
  close_portfolio_position
    (close_portfolio_position c8Store "t8a" 0 (-325) (some 6) 4)
    "t8b" 1 0 (some 6) 5

/-- C8 counterexample: through `get_portfolio_positions` a closed position
with `exit_price` 0.0 is exposed with `exit_price = null`, and one with
`realized_pnl` exactly 0 is exposed with `realized_pnl = null` (the
`float(x) if x else None` conversions), so the three conditions of the
claim are not pairwise equivalent on the ledger interface. -/
theorem C8_counterexample :
    ((get_portfolio_positions c8Closed 6 "closed").map
        (fun v => (v.status, v.exit_price, v.realized_pnl)))
      = [("closed", none, some (-325)), ("closed", some 1, none)] ∧
    ¬ (∀ v ∈ get_portfolio_positions c8Closed 6 "closed",
        (v.status = "open" ↔ v.realized_pnl = none) ∧
        (v.realized_pnl = none ↔ v.exit_price = none)) := by
  have heval : ((get_portfolio_positions c8Closed 6 "closed").map
        (fun v => (v.status, v.exit_price, v.realized_pnl)))
      = [("closed", none, some (-325)), ("closed", some 1, none)] := by
    simp [c8Closed, close_portfolio_position, c8Store, c8PositionA,
      c8PositionB, get_portfolio_positions, readPositionRow, floatOrNone,
      floatOrZero, pidMatches]
  refine ⟨heval, fun h => ?_⟩
  have hmem : ("closed", some (1 : ℚ), (none : Option ℚ))
      ∈ ((get_portfolio_positions c8Closed 6 "closed").map
          (fun v => (v.status, v.exit_price, v.realized_pnl))) := by
    rw [heval]; simp
  obtain ⟨v, hv, hve⟩ := List.mem_map.mp hmem
  simp only [Prod.mk.injEq] at hve
  obtain ⟨hs, he, hr⟩ := hve
  have h1 := (h v hv).1
  rw [hs, hr] at h1
  simp at h1

theorem position_invariant_close (st : Store)
    (h : PositionInvariant st) (trade_id : String) (exit_price realized_pnl : ℚ)
    (portfolio_id : Option Nat) (now : Nat) :
    PositionInvariant
      (close_portfolio_position st trade_id exit_price realized_pnl
        portfolio_id now) := by
  intro r hr
  simp only [close_portfolio_position, List.mem_map] at hr
  obtain ⟨r0, hr0, rfl⟩ := hr
  by_cases hc : r0.trade_id = trade_id ∧ pidMatches portfolio_id r0.portfolio_id
  · simp [hc]
  · simpa [hc] using h r0 hr0

theorem position_invariant_add (st : Store) (h : PositionInvariant st)
    (d : NewPositionData) (portfolio_id : Nat) (hd : d.status = "open") :
    PositionInvariant (add_portfolio_position st d portfolio_id) := by
  intro r hr
  simp only [add_portfolio_position, List.mem_append, List.mem_singleton] at hr
  rcases hr with hr | rfl
  · exact h r hr
  · simp [hd]

theorem position_invariant_update_pnl (st : Store) (h : PositionInvariant st)
    (trade_id : String) (v : ℚ) (portfolio_id : Option Nat) :
    PositionInvariant (update_portfolio_position_pnl st trade_id v portfolio_id) := by
  intro r hr
  simp only [update_portfolio_position_pnl, List.mem_map] at hr
  obtain ⟨r0, hr0, rfl⟩ := hr
  by_cases hc : r0.trade_id = trade_id ∧ pidMatches portfolio_id r0.portfolio_id
  · simpa [hc] using h r0 hr0
  · simpa [hc] using h r0 hr0

theorem exec_one_signal_position_invariant (portfolio_id now : Nat)
    (pd : PortfolioDict) (st : Store) (res : List SignalResult)
    (sig : SignalRow) (h : PositionInvariant st) :
    PositionInvariant (exec_one_signal portfolio_id now (pd, st, res) sig).2.1 := by
  simp only [exec_one_signal]
  cases sig.amount with
  | none => exact h
  | some a =>
    by_cases hlt : pd.balance < a
    · simpa [hlt] using h
    · simp only [if_neg hlt]
      intro r hr
      simp only [exec_signal_commits, mark_signal_executed,
        add_portfolio_position, insert_trade, List.mem_append,
        List.mem_singleton] at hr
      rcases hr with hr | rfl
      · exact h r hr
      · simp

theorem exec_foldl_position_invariant (portfolio_id now : Nat)
    (signals : List SignalRow) :
    ∀ (pd : PortfolioDict) (st : Store) (res : List SignalResult),
      PositionInvariant st →
      PositionInvariant ((signals.foldl (exec_one_signal portfolio_id now)
        (pd, st, res)).2.1) := by
  induction signals with
  | nil => intro pd st res h; exact h
  | cons sig rest ih =>
    intro pd st res h
    rw [List.foldl_cons,
      show exec_one_signal portfolio_id now (pd, st, res) sig
        = ((exec_one_signal portfolio_id now (pd, st, res) sig).1,
           (exec_one_signal portfolio_id now (pd, st, res) sig).2.1,
           (exec_one_signal portfolio_id now (pd, st, res) sig).2.2) from rfl]
    exact ih _ _ _
      (exec_one_signal_position_invariant portfolio_id now pd st res sig h)

theorem execute_signals_position_invariant (st : Store)
    (portfolio_id? : Option Nat) (now : Nat) (h : PositionInvariant st) :
    PositionInvariant (execute_signals st portfolio_id? now).1 := by
  rw [execute_signals]
  cases hp : get_portfolio_state_opt st portfolio_id? with
  | none => exact h
  | some p =>
    by_cases hs : get_current_signals st p.portfolio_id false = []
    · simp only [hs, if_pos rfl]
      exact h
    · simp only [if_neg hs]
      have hinv := exec_foldl_position_invariant p.portfolio_id now
        (get_current_signals st p.portfolio_id false)
        { balance := p.current_balance, total_invested := p.total_invested,
          trade_count := p.trade_count } st [] h
      intro r hr
      exact hinv r hr

theorem reprice_step_position_invariant (portfolio_id : Nat)
    (current_prices : List (String × Quote)) (st : Store) (t : ℚ)
    (position : PositionRow) (h : PositionInvariant st) :
    PositionInvariant
      (reprice_position_step portfolio_id current_prices (st, t) position).1 := by
  simp only [reprice_position_step]
  cases current_prices.lookup position.market_id with
  | none => exact h
  | some q =>
    by_cases ha : position.action = "buy_yes" ∨ position.action = "buy_no"
    · simp only [ha, if_true]
      by_cases hr :
          (if position.action = "buy_yes" then q.yes_price else q.no_price) = 1
          ∨ (if position.action = "buy_yes" then q.yes_price else q.no_price) = 0
      · simpa [hr, close_position_on_resolution] using h
      · simpa [hr] using
          position_invariant_update_pnl st h position.trade_id _ (some portfolio_id)
    · simpa [ha] using h

theorem reprice_foldl_position_invariant (portfolio_id : Nat)
    (current_prices : List (String × Quote)) (rows : List PositionRow) :
    ∀ (st : Store) (t : ℚ), PositionInvariant st →
      PositionInvariant
        ((rows.foldl (reprice_position_step portfolio_id current_prices)
          (st, t)).1) := by
  induction rows with
  | nil => intro st t h; exact h
  | cons position rest ih =>
    intro st t h
    rw [List.foldl_cons,
      show reprice_position_step portfolio_id current_prices (st, t) position
        = ((reprice_position_step portfolio_id current_prices (st, t)
            position).1,
           (reprice_position_step portfolio_id current_prices (st, t)
            position).2) from rfl]
    exact ih _ _
      (reprice_step_position_invariant portfolio_id current_prices st t
        position h)

theorem applyLedgerOp_position_invariant (st : Store) (op : LedgerOp)
    (h : PositionInvariant st) : PositionInvariant (applyLedgerOp st op) := by
  cases op with
  | execOp pid? now => exact execute_signals_position_invariant st pid? now h
  | settleOp pos ep won pid => exact h
  | repriceOp pid prices now =>
    rw [applyLedgerOp, reprice_portfolio]
    by_cases h1 : positionRowsOf st pid "open" = []
    · simpa [h1] using h
    · by_cases h2 : prices = []
      · simpa [h1, h2] using h
      · simp only [if_neg h1, if_neg h2, update_portfolio_pnl_in_db]
        intro r hr
        exact reprice_foldl_position_invariant pid prices
          (positionRowsOf st pid "open") st 0 h r hr

/-- C8 amended: the pairwise equivalence `status = open ⇔ realized_pnl =
null ⇔ exit_price = null` holds of the *stored* position rows and is
preserved by every ledger operation (execution, settlement, repricing,
`close_portfolio_position`, and `add_portfolio_position` with its callers'
`status = 'open'`); through the read interface
(`get_portfolio_positions`'s row conversion) the equivalence survives
exactly when the stored `exit_price` is not `0.0` and the stored
`realized_pnl` is not exactly `0`, because the conversion maps those falsy
values to `null` — so a closed position resolved at 0.0, or with realized
P&L exactly 0, is exposed violating the claimed equivalence
(see the counterexample). -/
theorem C8_position_lifecycle_amended (st : Store) (h : PositionInvariant st) :
    (∀ op, PositionInvariant (applyLedgerOp st op)) ∧
    (∀ trade_id exit_price realized_pnl portfolio_id now,
      PositionInvariant (close_portfolio_position st trade_id exit_price
        realized_pnl portfolio_id now)) ∧
    (∀ d portfolio_id, d.status = "open" →
      PositionInvariant (add_portfolio_position st d portfolio_id)) ∧
    (∀ r ∈ st.positions, r.exit_price ≠ some 0 → r.realized_pnl ≠ some 0 →
      ((readPositionRow r).status = "open"
        ↔ (readPositionRow r).realized_pnl = none) ∧
      ((readPositionRow r).realized_pnl = none
        ↔ (readPositionRow r).exit_price = none)) := by
  refine ⟨fun op => applyLedgerOp_position_invariant st op h,
    fun tid ep rp pid? now => position_invariant_close st h tid ep rp pid? now,
    fun d pid hd => position_invariant_add st h d pid hd,
    fun r hr hne he => ?_⟩
  have hre : floatOrNone r.realized_pnl = r.realized_pnl := by
    cases hx : r.realized_pnl with
    | none => simp [floatOrNone]
    | some v =>
      have : v ≠ 0 := fun hv => he (by rw [hx, hv])
      simp [floatOrNone, this]
  have hee : floatOrNone r.exit_price = r.exit_price := by
    cases hx : r.exit_price with
    | none => simp [floatOrNone]
    | some v =>
      have : v ≠ 0 := fun hv => hne (by rw [hx, hv])
      simp [floatOrNone, this]
  have hrow := h r hr
  constructor
  · simpa [readPositionRow, hre] using hrow.1
  · simpa [readPositionRow, hre, hee] using hrow.2

/-- Witness for `C8_position_lifecycle_amended` at the C8 fixture. -/
theorem C8_position_lifecycle_amended_witness :
    PositionInvariant c8Store ∧
    PositionInvariant
      (close_portfolio_position c8Store "t8a" 0 (-325) (some 6) 4) := by
  have hinv : PositionInvariant c8Store := by
    intro r hr
    simp only [c8Store, List.mem_cons, List.not_mem_nil, or_false] at hr
    rcases hr with rfl | rfl <;> simp [c8PositionA, c8PositionB]
  exact ⟨hinv,
    (C8_position_lifecycle_amended c8Store hinv).2.1 "t8a" 0 (-325) (some 6) 4⟩

/-! ## C9: restricted portfolio field updates -/

theorem update_portfolio_initial_balances (st : Store) (portfolio_id : Nat)
    (u : PortfolioUpdates) (now : Nat) (hu : u.initial_balance = none) :
    (update_portfolio st portfolio_id u now).portfolios.map
        (fun q => q.initial_balance)
      = st.portfolios.map (fun q => q.initial_balance) := by
  simp only [update_portfolio]
  induction st.portfolios with
  | nil => rfl
  | cons p rest ih =>
    simp only [List.map_cons] at ih ⊢
    rw [ih]
    by_cases h : p.portfolio_id = portfolio_id
    · simp [h, applyPortfolioUpdates, hu]
    · simp [h]

/-- Portfolio 9 for the update-endpoint claims. -/
def c9Portfolio : PortfolioRow :=
  { portfolio_id := 9
    name := "C9"
    description := ""
    strategy_type := "momentum"
    initial_balance := 25000
    current_balance := 25000
    total_invested := 0
    total_profit_loss := 0
    trade_count := 0
    status := "active"
    created_at := 0
    last_updated := 0
    strategy_config := ""
    last_trade_at := none
    last_price_update := none }

/-- The C9 store. -/
def c9Store : Store :=
  { portfolios := [c9Portfolio]
    positions := []
    trades := []
    signals := [] }

/-- C9 (restricted-field updates): the update endpoint scans the restricted
fields in the source's order and answers any request carrying one with a
rejection naming that field and the store exactly unchanged; a request
carrying none of them is applied through `update_portfolio`, which leaves
`initial_balance` untouched and stamps `last_updated = now`; the endpoint
can never change any portfolio's `initial_balance`; and `create_portfolio`
is the code path that sets it (together with `current_balance` defaulting
to it). -/
theorem C9_restricted_field_updates (st : Store) (portfolio_id : Nat)
    (u : PortfolioUpdates) (now : Nat) (p : PortfolioRow)
    (hp : get_portfolio_state st portfolio_id = some p) :
    (u.portfolio_id.isSome →
      update_portfolio_endpoint st portfolio_id u now
        = (st, ⟨false, some "portfolio_id",
            "Cannot update restricted field"⟩)) ∧
    (u.portfolio_id = none → u.created_at.isSome →
      update_portfolio_endpoint st portfolio_id u now
        = (st, ⟨false, some "created_at",
            "Cannot update restricted field"⟩)) ∧
    (u.portfolio_id = none → u.created_at = none → u.initial_balance.isSome →
      update_portfolio_endpoint st portfolio_id u now
        = (st, ⟨false, some "initial_balance",
            "Cannot update restricted field"⟩)) ∧
    (u.portfolio_id = none → u.created_at = none → u.initial_balance = none →
      (update_portfolio_endpoint st portfolio_id u now).1
          = update_portfolio st portfolio_id u now ∧
      get_portfolio_state (update_portfolio st portfolio_id u now)
          portfolio_id = some (applyPortfolioUpdates u now p) ∧
      (applyPortfolioUpdates u now p).initial_balance = p.initial_balance ∧
      (applyPortfolioUpdates u now p).last_updated = now) ∧
    ((update_portfolio_endpoint st portfolio_id u now).1.portfolios.map
        (fun q => q.initial_balance)
      = st.portfolios.map (fun q => q.initial_balance)) ∧
    (∀ d new_id cnow, ∃ q : PortfolioRow,
      (create_portfolio st d new_id cnow).portfolios = st.portfolios ++ [q] ∧
      q.initial_balance = d.initial_balance ∧
      q.current_balance = d.current_balance.getD d.initial_balance) := by
  refine ⟨?_, ?_, ?_, ?_, ?_, fun d new_id cnow => ⟨_, rfl, rfl, rfl⟩⟩
  · intro h1
    simp [update_portfolio_endpoint, hp, h1]
  · intro h1 h2
    simp [update_portfolio_endpoint, hp, h1, h2]
  · intro h1 h2 h3
    simp [update_portfolio_endpoint, hp, h1, h2, h3]
  · intro h1 h2 h3
    refine ⟨by simp [update_portfolio_endpoint, hp, h1, h2, h3], ?_, ?_, ?_⟩
    · rw [get_portfolio_state_update_portfolio st portfolio_id u now h1, hp]
      rfl
    · simp [applyPortfolioUpdates, h3]
    · simp [applyPortfolioUpdates]
  · by_cases h1 : u.portfolio_id.isSome
    · simp [update_portfolio_endpoint, hp, h1]
    · by_cases h2 : u.created_at.isSome
      · simp [update_portfolio_endpoint, hp, h1, h2]
      · by_cases h3 : u.initial_balance.isSome
        · simp [update_portfolio_endpoint, hp, h1, h2, h3]
        · have h3n : u.initial_balance = none := Option.not_isSome_iff_eq_none.mp h3
          simp only [update_portfolio_endpoint, hp, h1, h2, h3,
            Bool.false_eq_true, if_false]
          exact update_portfolio_initial_balances st portfolio_id u now h3n

/-- Witness for `C9_restricted_field_updates`: the endpoint rejects an
`initial_balance` update on the concrete store and stamps `last_updated` on
an allowed `status` update. -/
theorem C9_restricted_field_updates_witness :
    update_portfolio_endpoint c9Store 9 { initial_balance := some 777 } 3
      = (c9Store, ⟨false, some "initial_balance",
          "Cannot update restricted field"⟩) ∧
    (applyPortfolioUpdates { status := some "paused" } 3 c9Portfolio).last_updated = 3 :=
  ⟨(C9_restricted_field_updates c9Store 9 { initial_balance := some 777 } 3
      c9Portfolio rfl).2.2.1 rfl rfl rfl,
   (C9_restricted_field_updates c9Store 9 { status := some "paused" } 3
      c9Portfolio rfl).2.2.2.1 rfl rfl rfl |>.2.2.2⟩

/-! ## C10: missing amount validation -/

/-- An unexecuted signal with a negative amount. -/
def c10Signal : SignalRow :=
  { id := 13
    portfolio_id := 3
    market_id := "m10"
    market_question := "Negative?"
    action := "buy_yes"
    target_price := 0.20
    amount := some (-50)
    confidence := some 0.7
    reason := "momentum"
    executed := false
    executed_at := none
    trade_id := none }

/-- A legacy `execute_trade` signal dictionary with no `'amount'` key. -/
def c10LegacySignal : LegacySignal :=
  { market_id := "m10"
    market_question := "No amount key?"
    action := "buy_no"
    target_price := 0.40
    confidence := some 0.6
    reason := "momentum"
    amount := none }

/-- C10 (implicit: amounts are never validated as positive): for a signal
with `amount = a ≤ 0` and a non-negative balance the check
`balance < amount` cannot fire, the signal executes creating a Position and
a Trade, and the balance moves to `balance - a` — a strict increase when
`a < 0`; and the legacy `execute_trade`, given a signal dictionary without
an `'amount'` key, executes with the default amount 100
(`signal.get('amount', 100)`). -/
theorem C10_no_amount_validation :
    (∀ portfolio_id now pd st res sig a, sig.amount = some a → a ≤ 0 →
      0 ≤ pd.balance →
      ¬ pd.balance < a ∧
      (exec_one_signal portfolio_id now (pd, st, res) sig).2.2
        = res ++ [⟨sig.market_id, "executed",
            "Trade executed successfully"⟩] ∧
      (exec_one_signal portfolio_id now (pd, st, res) sig).1.balance
        = pd.balance - a ∧
      (a < 0 → pd.balance
        < (exec_one_signal portfolio_id now (pd, st, res) sig).1.balance) ∧
      (∃ r, (exec_one_signal portfolio_id now (pd, st, res) sig).2.1.positions
        = st.positions ++ [r]) ∧
      (∃ t, (exec_one_signal portfolio_id now (pd, st, res) sig).2.1.trades
        = st.trades ++ [t])) ∧
    (∀ sig pf now, sig.amount = none → ¬ pf.balance < 100 →
      (execute_trade sig pf now).2.status = "executed" ∧
      (∃ t, (execute_trade sig pf now).2.trade = some t ∧ t.amount = 100) ∧
      (execute_trade sig pf now).1.balance = pf.balance - 100) := by
  constructor
  · intro portfolio_id now pd st res sig a ha ha0 hb
    have hlt : ¬ pd.balance < a := not_lt.mpr (le_trans ha0 hb)
    refine ⟨hlt, ?_, ?_, ?_, ?_, ?_⟩
    · simp [exec_one_signal, ha, hlt]
    · simp [exec_one_signal, ha, hlt]
    · intro haneg
      simp only [exec_one_signal, ha, if_neg hlt]
      linarith
    · simp only [exec_one_signal, ha, if_neg hlt, exec_signal_commits,
        mark_signal_executed, add_portfolio_position, insert_trade]
      exact ⟨_, rfl⟩
    · simp only [exec_one_signal, ha, if_neg hlt, exec_signal_commits,
        mark_signal_executed, add_portfolio_position, insert_trade]
      exact ⟨_, rfl⟩
  · intro sig pf now ha hlt
    simp only [execute_trade, ha, Option.getD_none, if_neg hlt]
    exact ⟨trivial, ⟨_, rfl, rfl⟩, trivial⟩

/-- Witness for `C10_no_amount_validation`: a `-50` signal executes and
increases the balance from 1000 to 1050; a legacy signal without an amount
key executes. -/
theorem C10_no_amount_validation_witness :
    (exec_one_signal 3 6 (⟨1000, 0, 0⟩, c5Store, []) c10Signal).1.balance
      = 1000 - (-50) ∧
    (execute_trade c10LegacySignal ⟨1000, 0, 0, [], 0⟩ 6).2.status
      = "executed" :=
  ⟨(C10_no_amount_validation.1 3 6 ⟨1000, 0, 0⟩ c5Store [] c10Signal (-50)
      rfl (by norm_num) (by norm_num)).2.2.1,
   (C10_no_amount_validation.2 c10LegacySignal ⟨1000, 0, 0, [], 0⟩ 6 rfl
      (by norm_num)).1⟩

end PrescientOS
